import Mathlib

/-!
Shallow embedding of the request-query helper of the ggrc-core repository
(source file src/ggrc/converters/query_helper.py) together with proofs about
its behavior.  Python dictionaries that shape queries and filter expressions
are embedded as structures and inductive types whose optional fields encode
key presence; Python exceptions are embedded as an error type threaded through
Except; the relational store, the schema registry, the relationship resolver
and the authorization gate are external collaborators embedded as function
fields of an environment record.
-/

/-- Scalar values that appear in queries: JSON strings, JSON numbers
(identifiers), and datetime.date values produced by date parsing. -/
inductive Value where
  | vint (n : Int)
  | vstr (s : String)
  | vdate (y m d : Int)
deriving DecidableEq, Repr

/-- Python exceptions raised by the query helper: BadQueryException plus the
built-in exception kinds the code can raise or deliberately re-raise. -/
inductive QueryError where
  | badQuery (msg : String)
  | valueError (msg : String)
  | typeError (msg : String)
  | keyError (key : String)
  | indexError
  | notImplementedError (msg : String)
deriving DecidableEq, Repr

/-- Decimal value of a digit character. -/
def digVal (c : Char) : Option Nat :=
  if '0' ≤ c ∧ c ≤ '9' then some (c.toNat - '0'.toNat) else none

/-- Accumulating decimal parse of a digit run. -/
def digitsToNatGo (acc : Nat) : List Char → Option Nat
  | [] => some acc
  | c :: cs =>
    match digVal c with
    | some d => digitsToNatGo (acc * 10 + d) cs
    | none => none

/-- Nonempty all-digit run parsed as a natural number. -/
def digitsToNat : List Char → Option Nat
  | [] => none
  | c :: cs => digitsToNatGo 0 (c :: cs)

/-- Python int(x) on a string: optional sign, digits, surrounding whitespace
allowed; non-numeric input is a ValueError, here none. -/
def pyIntChars (l : List Char) : Option Int :=
  let t := ((l.dropWhile Char.isWhitespace).reverse.dropWhile Char.isWhitespace).reverse
  match t with
  | '+' :: rest => (digitsToNat rest).map Int.ofNat
  | '-' :: rest => (digitsToNat rest).map (fun n => -(n : Int))
  | rest => (digitsToNat rest).map Int.ofNat

/-- Python int(x) on a string. -/
def pyIntStr (s : String) : Option Int :=
  pyIntChars s.data

/-- Whether the first list is a leading segment of the second. -/
def leadsWith : List Char → List Char → Bool
  | [], _ => true
  | _ :: _, [] => false
  | a :: as, b :: bs => a == b && leadsWith as bs

/-- Whether the first list occurs as a contiguous segment of the second. -/
def hasSubList (needle : List Char) : List Char → Bool
  | [] => needle.isEmpty
  | x :: xs => leadsWith needle (x :: xs) || hasSubList needle xs

/-- Python substring containment test (needle in hay). -/
def containsStr (hay needle : String) : Bool :=
  hasSubList needle.data hay.data

/-- Split a character list at every occurrence of a separator character. -/
def splitCharList (c : Char) : List Char → List (List Char)
  | [] => [[]]
  | x :: xs =>
    let r := splitCharList c xs
    if x == c then [] :: r
    else
      match r with
      | y :: ys => (x :: y) :: ys
      | [] => [[x]]

/-- Python s.split(sep) for a one-character separator; the empty string
splits to a single empty part. -/
def splitOnChar (c : Char) (s : String) : List String :=
  (splitCharList c s.data).map List.asString

/-- Lower-casing of a string, character by character. -/
def lowerStr (s : String) : String :=
  (s.data.map Char.toLower).asString

/-- Gregorian leap-year rule used by datetime.date. -/
def isLeapYear (y : Int) : Bool :=
  (y % 4 == 0 && y % 100 != 0) || y % 400 == 0

/-- Number of days in a month, as validated by the datetime.date constructor. -/
def daysInMonth (y m : Int) : Int :=
  if m = 2 then (if isLeapYear y then 29 else 28)
  else if m = 4 ∨ m = 6 ∨ m = 9 ∨ m = 11 then 30
  else 31

/-- Whether datetime.date(y, m, d) succeeds (MINYEAR = 1, MAXYEAR = 9999). -/
def validDate (y m d : Int) : Bool :=
  decide (1 ≤ y ∧ y ≤ 9999 ∧ 1 ≤ m ∧ m ≤ 12 ∧ 1 ≤ d ∧ d ≤ daysInMonth y m)

/-- Normalize one bound of a Python slice against a list length: negative
indexes count from the end, and out-of-range bounds are clamped. -/
def pyNorm (len : Nat) (i : Int) : Nat :=
  if i < 0 then (i + len).toNat else min i.toNat len

/-- Python slice xs[i:j]. -/
def pySlice {α : Type} (xs : List α) (i j : Int) : List α :=
  let s := pyNorm xs.length i
  let e := pyNorm xs.length j
  (xs.drop s).take (e - s)

/-- Python list indexing xs[i]: negative indexes count from the end; out of
range is an IndexError, here none. -/
def pyIndex {α : Type} (xs : List α) (i : Int) : Option α :=
  if 0 ≤ i then xs.get? i.toNat
  else
    let j := i + xs.length
    if 0 ≤ j then xs.get? j.toNat else none

/-- Two-digit zero padding for the ISO rendering of a date component. -/
def pad2 (n : Int) : String :=
  if n < 10 then "0" ++ toString n else toString n

/-- Four-digit zero padding for the ISO rendering of a year. -/
def pad4 (n : Int) : String :=
  if n < 10 then "000" ++ toString n
  else if n < 100 then "00" ++ toString n
  else if n < 1000 then "0" ++ toString n
  else toString n

/-- Python str() of a scalar value, as used by "%{}%".format(...); dates
render in ISO form. -/
def pyFormatV : Value → String
  | .vstr s => s
  | .vint n => toString n
  | .vdate y m d => pad4 y ++ "-" ++ pad2 m ++ "-" ++ pad2 d

/-- A filter-expression tree node.  A node embeds a Python dict: each optional
field encodes presence of the corresponding key ("op" is flattened to the name
inside the op sub-dict).  A lit embeds a bare scalar sitting where a
sub-expression may sit (e.g. the field-name string in "left", the literal in
"right"). -/
inductive Exp where
  | lit (v : Value)
  | node (op : Option String) (left : Option Exp) (right : Option Exp)
      (object_name : Option String) (ids : Option (List Value))
      (slugs : Option (List String)) (id_ : Option Value)
      (text : Option String)

/-- The filters sub-dict of an Object Query; only the expression key is read
by the helper. -/
structure Filters where
  expression : Option Exp

/-- One order_by clause: a field name and an optional descending flag. -/
structure OrderClause where
  name : String
  desc : Bool

/-- One Object Query record of a query batch.  ids is the result field that
get_ids populates. -/
structure ObjectQuery where
  object_name : String
  permissions : Option String
  order_by : Option (List OrderClause)
  limit : Option (List Value)
  filters : Option Filters
  fields : List String
  ids : Option (List Int)

/-- A persisted object as seen by this component: a numeric id plus its
attribute values, looked up by internal field name. -/
structure Obj where
  id : Int
  attrVal : String → Option Value

/-- What a filter compiles into when applied to one attribute: the
comparison or pattern the lambda passed to with_key builds. -/
inductive PredApp where
  | eqV (v : Exp)
  | ltV (v : Exp)
  | gtV (v : Exp)
  | ilikeV (pat : String)

/-- A compiled SQLAlchemy filter expression.  excObj embeds the source bug in
which a BadQueryException object is returned as a value instead of being
raised. -/
inductive Filt where
  | cmpEq (attr : String) (v : Exp)
  | cmpLt (attr : String) (v : Exp)
  | cmpGt (attr : String) (v : Exp)
  | ilike (attr : String) (pat : String)
  | notF (f : Filt)
  | andF (l r : Option Filt)
  | orF (l r : Option Filt)
  | orAny (fs : List Filt)
  | inIds (ids : List Int)
  | excObj (msg : String)

/-- An ordering column resolved by join_and_order. -/
inductive OrderCol where
  | simWeight
  | attrCol (key : String)
  | relTitle (key : String)
  | relPersonNameEmail (key : String)
deriving DecidableEq, Repr

/-- One resolved ordering clause. -/
structure OrderSpec where
  col : OrderCol
  desc : Bool
deriving DecidableEq, Repr

/-- The kind of relationship an attribute of a model points at, as inspected
by the sorting code; none means a plain scalar column. -/
inductive RelKind where
  | titled
  | person
  | otherRel (modelName : String)
deriving DecidableEq, Repr

/-- A model class from the schema registry: its name, the attribute names
getattr finds on it, whether it defines the similarity contract
get_similar_objects_query, and the ids that contract returns for a seed id
and a requested type. -/
structure ObjectClass where
  name : String
  attrs : List String
  hasGetSimilarObjectsQuery : Bool
  getSimilarObjectIds : Value → String → List Int

/-- The external collaborators of the query helper: schema registry
(object_map, attrNameMap, relKind), relationship resolver (relatedIds), slug
lookup, authorization gate (canRead/canUpdate) and the relational store
(storeQuery returns all persisted instances of a class; sortObjs is the ORDER
BY the store performs for resolved ordering clauses, given the request-scoped
similarity subquery ids). -/
structure Env where
  object_map : String → Option ObjectClass
  attrNameMap : String → String → Option (String × Option (PredApp → Filt))
  relKind : String → String → Option RelKind
  relatedIds : String → String → List Value → List Int
  slugsToIds : String → List String → List Int
  canRead : Obj → Bool
  canUpdate : Obj → Bool
  storeQuery : String → List Obj
  sortObjs : List OrderSpec → Option (List Int) → List Obj → List Obj

/-- Python int(x) applied to one ids entry: ints pass through, strings are
parsed (ValueError when non-numeric), a date raises TypeError. -/
def pyIntV : Value → Except QueryError Value
  | .vint n => .ok (.vint n)
  | .vstr s =>
    match pyIntStr s with
    | some n => .ok (.vint n)
    | none => .error (.valueError ("invalid literal for int with base 10: " ++ s))
  | .vdate _ _ _ => .error (.typeError "int argument must be a string or a number, not datetime.date")

/-- The list comprehension [int(x) for x in ids]: first failure wins. -/
def coerceIds : List Value → Except QueryError (List Value)
  | [] => .ok []
  | v :: vs => do
    let v2 ← pyIntV v
    let vs2 ← coerceIds vs
    .ok (v2 :: vs2)

/-- Whether an embedded dict node is empty, hence falsy in Python. -/
def Exp.isEmptyNode : Exp → Bool
  | .lit _ => false
  | .node op l r objn ids slugs id_ text =>
    op.isNone && l.isNone && r.isNone && objn.isNone && ids.isNone &&
      slugs.isNone && id_.isNone && text.isNone

mutual

/-- QueryHelper._clean_filters: resolves slugs into ids, coerces every ids
entry to an integer (a ValueError becomes a BadQuery error naming the object
type when the operator is relevant and is re-raised unchanged otherwise), and
recurses into the left and right sub-expressions.  Mutation of the expression
dict is embedded as returning the rewritten node. -/
def cleanFilters (env : Env) : Exp → Except QueryError Exp
  | .lit v => .ok (.lit v)
  | .node op l r objn ids slugs id_ text =>
    if (Exp.node op l r objn ids slugs id_ text).isEmptyNode then
      .ok (.node op l r objn ids slugs id_ text)
    else do
      let ids1 ← match slugs with
        | some sl =>
          if sl.isEmpty then pure ids
          else
            match objn with
            | some objName =>
              pure (some ((ids.getD []) ++ (env.slugsToIds objName sl).map Value.vint))
            | none => throw (.keyError "object_name")
        | none => pure ids
      let ids2 ← match coerceIds (ids1.getD []) with
        | .ok xs => pure xs
        | .error (.valueError m) =>
          if op.getD "" = "relevant" then
            throw (.badQuery ("Invalid relevant filter for " ++ objn.getD ""))
          else throw (.valueError m)
        | .error e => throw e
      let l2 ← cleanFiltersOpt env l
      let r2 ← cleanFiltersOpt env r
      pure (.node op l2 r2 objn (some ids2) slugs id_ text)

/-- Recursive descent of _clean_filters into an optional sub-expression; an
absent key is simply skipped (expression.get returns None, which is falsy). -/
def cleanFiltersOpt (env : Env) : Option Exp → Except QueryError (Option Exp)
  | none => pure none
  | some e => do pure (some (← cleanFilters env e))

end

mutual

/-- QueryHelper._expression_keys: the set of hashable left operands of the
leaves of an expression tree.  Only string keys are kept here, since the set
is only ever probed for the strings start and end, and a non-string hashable
left operand can never equal those; an unhashable dict contributes nothing.
Calling it on a bare scalar is an AttributeError (no get method). -/
def expressionKeys : Exp → Except QueryError (List String)
  | .lit _ => throw (.typeError "scalar has no attribute get")
  | .node op l r _ _ _ _ _ =>
    if op = some "AND" ∨ op = some "OR" then do
      let kl ← expressionKeysChild "left" l
      let kr ← expressionKeysChild "right" r
      pure (kl ++ kr)
    else
      match l with
      | some (.lit (.vstr s)) => pure [s]
      | some (.lit _) => pure []
      | some (.node _ _ _ _ _ _ _ _) => pure []
      | none => pure []

/-- Descent of _expression_keys through the mandatory left/right child of an
AND/OR node (direct dict indexing: an absent key is a KeyError). -/
def expressionKeysChild (key : String) : Option Exp → Except QueryError (List String)
  | none => throw (.keyError key)
  | some e => expressionKeys e

end

mutual

/-- expand_task_dates (the inner worker of _macro_expand_object_query):
rewrites a leaf whose left operand is start or end according to the number of
slash-separated parts of its right operand: three parts parse as
month/day/year and become a <key>_date comparison against a date literal (the
date construction sits outside the try, so a calendar-invalid date raises a
raw ValueError); two parts become an AND of relative_<key>_month and
relative_<key>_day comparisons that keep the original operator and the raw
string parts; one part renames the left operand to relative_<key>_day; any
other number of parts is a BadQuery error. -/
def expandTaskDates : Exp → Except QueryError Exp
  | .lit v => pure (.lit v)
  | .node none l r objn ids slugs id_ text =>
    pure (.node none l r objn ids slugs id_ text)
  | .node (some operator) l r objn ids slugs id_ text =>
    if operator = "AND" ∨ operator = "OR" then do
      let l2 ← expandTaskDatesChild "left" l
      let r2 ← expandTaskDatesChild "right" r
      pure (.node (some operator) (some l2) (some r2) objn ids slugs id_ text)
    else
      match l with
      | some (.lit (.vstr key)) =>
        if key = "start" ∨ key = "end" then do
          let rstr ← match r with
            | some (.lit (.vstr s)) => pure s
            | some _ => throw (.typeError "object has no attribute split")
            | none => throw (.keyError "right")
          match splitOnChar '/' rstr with
          | [a, b, c] =>
            (match pyIntStr a, pyIntStr b, pyIntStr c with
             | some mo, some da, some yr =>
               if validDate yr mo da then
                 pure (.node (some operator) (some (.lit (.vstr (key ++ "_date"))))
                   (some (.lit (.vdate yr mo da))) objn ids slugs id_ text)
               else throw (.valueError "day is out of range for month")
             | _, _, _ => throw (.badQuery "Date must consist of numbers"))
          | [a, b] =>
            pure (.node (some "AND")
              (some (.node (some operator)
                (some (.lit (.vstr ("relative_" ++ key ++ "_month"))))
                (some (.lit (.vstr a))) none none none none none))
              (some (.node (some operator)
                (some (.lit (.vstr ("relative_" ++ key ++ "_day"))))
                (some (.lit (.vstr b))) none none none none none))
              objn ids slugs id_ text)
          | [_] =>
            pure (.node (some operator)
              (some (.lit (.vstr ("relative_" ++ key ++ "_day")))) r
              objn ids slugs id_ text)
          | _ =>
            throw (.badQuery ("Field " ++ key ++ " should be a date of one of the" ++
              " following forms: DD, MM/DD, MM/DD/YYYY"))
        else pure (.node (some operator) l r objn ids slugs id_ text)
      | some e => pure (.node (some operator) (some e) r objn ids slugs id_ text)
      | none => throw (.keyError "left")

/-- Descent of expand_task_dates into the mandatory left/right child of an
AND/OR node (direct dict indexing: an absent key is a KeyError). -/
def expandTaskDatesChild (key : String) : Option Exp → Except QueryError Exp
  | none => throw (.keyError key)
  | some e => expandTaskDates e

end

/-- QueryHelper._macro_expand_object_query: only for object type
TaskGroupTask with a filters dict present; reads filters["expression"] by
direct indexing and runs expand_task_dates when the expression keys mention
start or end. -/
def expandObjectQueryDates (oq : ObjectQuery) : Except QueryError ObjectQuery :=
  if oq.object_name = "TaskGroupTask" then
    match oq.filters with
    | none => pure oq
    | some f =>
      match f.expression with
      | none => throw (.keyError "expression")
      | some exp => do
        let keys ← expressionKeys exp
        if keys.contains "start" || keys.contains "end" then do
          let exp2 ← expandTaskDates exp
          pure { oq with filters := some { expression := some exp2 } }
        else pure oq
  else pure oq

/-- Store a sanitized expression back into the query record (the embedding of
in-place mutation of the filters dict). -/
def setExpression (oq : ObjectQuery) (e : Option Exp) : ObjectQuery :=
  match oq.filters with
  | some _ => { oq with filters := some { expression := e } }
  | none => oq

/-- QueryHelper._clean_query: for every Object Query, sanitize its filter
expression (when present) and then apply the TaskGroupTask date expansion. -/
def cleanQuery (env : Env) (query : List ObjectQuery) : Except QueryError (List ObjectQuery) :=
  query.mapM fun oq => do
    let oq2 ← match oq.filters.bind Filters.expression with
      | some ex => do
        let ex2 ← cleanFilters env ex
        pure (setExpression oq (some ex2))
      | none => pure oq
    expandObjectQueryDates oq2

/-- The date-field test of autocast: the aliased key contains "date" without
"relative", or is exactly end_date or start_date. -/
def isDateKey (key : String) : Bool :=
  (containsStr key "date" && !containsStr key "relative") ||
    key == "end_date" || key == "start_date"

/-- autocast (inner helper of _build_expression): when the left operand is a
string whose aliased key contains "date" without "relative", or is exactly
end_date or start_date, the right literal must be a date value or parse as
MM/DD/YYYY; every failure inside the attempt (non-numeric parts, a wrong
number of parts, a non-string value, and notably the date construction of a
calendar-invalid date) is caught and becomes a BadQuery error.  A non-string
left operand or a non-date key returns the value unchanged. -/
def autocast (env : Env) (cls : ObjectClass) (o_key : Exp) (value : Exp) :
    Except QueryError Exp :=
  match o_key with
  | .lit (.vstr okey) =>
    if isDateKey ((env.attrNameMap cls.name okey).getD (okey, none)).1 then
      match value with
      | .lit (.vdate y m d) => pure (.lit (.vdate y m d))
      | .lit (.vstr s) =>
        (match splitOnChar '/' s with
         | [a, b, c] =>
           (match pyIntStr a, pyIntStr b, pyIntStr c with
            | some mo, some da, some yr =>
              if validDate yr mo da then pure (.lit (.vdate yr mo da))
              else throw (.badQuery ("Field \"" ++ okey ++ "\" expects a MM/DD/YYYY date"))
            | _, _, _ => throw (.badQuery ("Field \"" ++ okey ++ "\" expects a MM/DD/YYYY date")))
         | _ => throw (.badQuery ("Field \"" ++ okey ++ "\" expects a MM/DD/YYYY date")))
      | _ => throw (.badQuery ("Field \"" ++ okey ++ "\" expects a MM/DD/YYYY date"))
    else pure value
  | _ => pure value

/-- Python str() of whatever sits in a right operand, as used when a pattern
is formatted; a dict renders as its repr, which no claim path exercises. -/
def pyFormatExp : Exp → String
  | .lit v => pyFormatV v
  | .node _ _ _ _ _ _ _ _ => "dict-repr"

/-- Application of the comparison lambda to a resolved attribute column. -/
def applyPred (p : PredApp) (attr : String) : Filt :=
  match p with
  | .eqV v => .cmpEq attr v
  | .ltV v => .cmpLt attr v
  | .gtV v => .cmpGt attr v
  | .ilikeV pat => .ilike attr pat

/-- with_key (inner helper of _build_expression): lower-case the key, resolve
it through the alias map; a custom filter_by builder takes over when present,
otherwise the attribute must exist on the class (else BadQuery) and the
comparison lambda is applied to it.  mkP embeds the deferred evaluation of the
lambda body (including autocast of the right operand), which only runs after
key resolution succeeds. -/
def withKey (env : Env) (cls : ObjectClass) (key : String)
    (mkP : Except QueryError PredApp) : Except QueryError Filt :=
  let k := lowerStr key
  let kf := (env.attrNameMap cls.name k).getD (k, none)
  match kf.2 with
  | some fb => do
    let p ← mkP
    pure (fb p)
  | none =>
    if cls.attrs.contains kf.1 then do
      let p ← mkP
      pure (applyPred p kf.1)
    else
      throw (.badQuery ("Bad query: object " ++ cls.name ++
        " does not have attribute " ++ kf.1 ++ "."))

/-- The left operand as a field name: exp["left"] must be present (KeyError)
and a string (.lower on anything else is an AttributeError). -/
def leftKey : Option Exp → Except QueryError String
  | some (.lit (.vstr s)) => pure s
  | some _ => throw (.typeError "object has no attribute lower")
  | none => throw (.keyError "left")

/-- A comparison operator applied through with_left: resolve the left key,
then (inside the lambda) fetch the right operand (KeyError when absent),
autocast it against the left key, and build the comparison. -/
def cmpFilt (env : Env) (cls : ObjectClass) (l r : Option Exp)
    (mk : Exp → Except QueryError PredApp) : Except QueryError Filt := do
  let okey ← leftKey l
  withKey env cls okey (do
    let rv ← match r with
      | some x => pure x
      | none => throw (.keyError "right")
    let casted ← autocast env cls (.lit (.vstr okey)) rv
    mk casted)

/-- The non-AND/OR operators of the ops table of _build_expression, none of
which recurse into sub-expressions.  Returns the compiled filter together
with the request-scoped similarity-subquery state (flask.g), which only the
similar operator writes.  For similar on a class without the similarity
contract the source returns the BadQueryException object instead of raising
it; this is embedded as successfully producing the excObj filter value. -/
def buildLeafOp (env : Env) (batch : List ObjectQuery) (cls : ObjectClass)
    (fields : List String) (opn : String) (l r : Option Exp)
    (objn : Option String) (ids : Option (List Value)) (id_ : Option Value)
    (text : Option String) (sim : Option (List Int)) :
    Except QueryError (Option Filt × Option (List Int)) :=
  if opn = "=" then do
    let f ← cmpFilt env cls l r (fun v => pure (.eqV v))
    pure (some f, sim)
  else if opn = "!=" then do
    let f ← cmpFilt env cls l r (fun v => pure (.eqV v))
    pure (some (.notF f), sim)
  else if opn = "~" then do
    let f ← cmpFilt env cls l r (fun v => pure (.ilikeV ("%" ++ pyFormatExp v ++ "%")))
    pure (some f, sim)
  else if opn = "!~" then do
    let f ← cmpFilt env cls l r (fun v => pure (.ilikeV ("%" ++ pyFormatExp v ++ "%")))
    pure (some (.notF f), sim)
  else if opn = "<" then do
    let f ← cmpFilt env cls l r (fun v => pure (.ltV v))
    pure (some f, sim)
  else if opn = ">" then do
    let f ← cmpFilt env cls l r (fun v => pure (.gtV v))
    pure (some f, sim)
  else if opn = "relevant" then do
    let onv ← match objn with
      | some s => pure s
      | none => throw (.keyError "object_name")
    if onv = "__previous__" then do
      let idsv ← match ids with
        | some v => pure v
        | none => throw (.keyError "ids")
      let first ← match idsv with
        | v :: _ => pure v
        | [] => throw .indexError
      let idx ← match first with
        | .vint n => pure n
        | _ => throw (.typeError "list indices must be integers")
      let entry ← match pyIndex batch idx with
        | some q => pure q
        | none => throw .indexError
      let entryIds ← match entry.ids with
        | some v => pure v
        | none => throw (.keyError "ids")
      pure (some (.inIds (env.relatedIds cls.name entry.object_name
        (entryIds.map Value.vint))), sim)
    else do
      let idsv ← match ids with
        | some v => pure v
        | none => throw (.keyError "ids")
      pure (some (.inIds (env.relatedIds cls.name onv idsv)), sim)
  else if opn = "text_search" then do
    let t ← match text with
      | some s => pure s
      | none => throw (.keyError "text")
    let fs := fields.filter (fun f => (env.attrNameMap cls.name f).isSome)
    let filts ← fs.mapM (fun f => withKey env cls f (pure (.ilikeV ("%" ++ t ++ "%"))))
    pure (some (.orAny filts), sim)
  else if opn = "similar" then do
    let onv ← match objn with
      | some s => pure s
      | none => throw (.keyError "object_name")
    let simCls ← match env.object_map onv with
      | some c => pure c
      | none => throw (.keyError onv)
    if !simCls.hasGetSimilarObjectsQuery then
      pure (some (.excObj (simCls.name ++
        " does not define weights to count relationships similarity")), sim)
    else do
      let idv ← match id_ with
        | some v => pure v
        | none => throw (.keyError "id")
      let simIds := simCls.getSimilarObjectIds idv cls.name
      pure (some (.inIds simIds), some simIds)
  else throw (.badQuery ("Unknown operator \"" ++ opn ++ "\""))

mutual

/-- QueryHelper._build_expression: a node without an op key (or a bare scalar
where a dict is expected) compiles to no filter; AND/OR compile both children
(left first, threading the similarity state) and combine; every other
operator is a leaf handled by the ops table. -/
def buildExpression (env : Env) (batch : List ObjectQuery) (cls : ObjectClass)
    (fields : List String) : Exp → Option (List Int) →
    Except QueryError (Option Filt × Option (List Int))
  | .lit _, sim => pure (none, sim)
  | .node none _ _ _ _ _ _ _, sim => pure (none, sim)
  | .node (some opn) l r objn ids _slugs id_ text, sim =>
    if opn = "AND" ∨ opn = "OR" then do
      let (fl, sim1) ← buildSub env batch cls fields "left" l sim
      let (fr, sim2) ← buildSub env batch cls fields "right" r sim1
      pure (some (if opn = "AND" then Filt.andF fl fr else Filt.orF fl fr), sim2)
    else buildLeafOp env batch cls fields opn l r objn ids id_ text sim

/-- lift_bin fetches exp["left"] / exp["right"] by direct dict indexing (an
absent key is a KeyError) and compiles the child. -/
def buildSub (env : Env) (batch : List ObjectQuery) (cls : ObjectClass)
    (fields : List String) (key : String) : Option Exp → Option (List Int) →
    Except QueryError (Option Filt × Option (List Int))
  | none, _ => throw (.keyError key)
  | some e, sim => buildExpression env batch cls fields e sim

end

/-- Strict ordering between scalar values as the store compares them; values
of different kinds do not compare. -/
def valueLt : Value → Value → Bool
  | .vint a, .vint b => decide (a < b)
  | .vstr a, .vstr b => decide (a < b)
  | .vdate y m d, .vdate y2 m2 d2 =>
    decide (y < y2 ∨ (y = y2 ∧ (m < m2 ∨ (m = m2 ∧ d < d2))))
  | _, _ => false

/-- The store's evaluation of an ILIKE against a wildcard-wrapped pattern
"%text%": case-insensitive containment of the inner text. -/
def ilikeMatch (s pat : String) : Bool :=
  containsStr (lowerStr s) (lowerStr ((pat.drop 1).dropRight 1))

/-- Equality comparison of a stored attribute value against a right operand;
only scalar literals of the same kind compare equal. -/
def evalCmpEq (w : Value) (rhs : Exp) : Bool :=
  match rhs with
  | .lit v => w == v
  | .node _ _ _ _ _ _ _ _ => false

/-- The store's evaluation of a compiled filter against one object.  A
missing attribute value behaves as SQL NULL (no comparison holds); an absent
operand of a boolean combinator is neutral; an exception object used as a
filter (the similar-operator bug) matches nothing. -/
def evalFilt (o : Obj) : Filt → Bool
  | .cmpEq attr v =>
    (match o.attrVal attr with
     | some w => evalCmpEq w v
     | none => false)
  | .cmpLt attr v =>
    (match o.attrVal attr, v with
     | some w, .lit u => valueLt w u
     | _, _ => false)
  | .cmpGt attr v =>
    (match o.attrVal attr, v with
     | some w, .lit u => valueLt u w
     | _, _ => false)
  | .ilike attr pat =>
    (match o.attrVal attr with
     | some w => ilikeMatch (pyFormatV w) pat
     | none => false)
  | .notF f => !evalFilt o f
  | .andF none none => true
  | .andF (some f) none => evalFilt o f
  | .andF none (some g) => evalFilt o g
  | .andF (some f) (some g) => evalFilt o f && evalFilt o g
  | .orF none none => false
  | .orF (some f) none => evalFilt o f
  | .orF none (some g) => evalFilt o g
  | .orF (some f) (some g) => evalFilt o f || evalFilt o g
  | .orAny [] => false
  | .orAny (f :: fs) => evalFilt o f || evalFilt o (.orAny fs)
  | .inIds ids => ids.contains o.id
  | .excObj _ => false

/-- join_and_order (inner helper of _apply_order_by): resolve one ordering
clause.  __similarity__ needs the request-scoped similarity subquery (else
BadQuery); any other name resolves through the alias map and must be an
attribute of the model (else BadQuery); a relationship attribute orders by
the related title for Titled targets, by name-or-email for Person targets,
and is NotImplementedError otherwise; the desc flag reverses the clause. -/
def joinAndOrder (env : Env) (cls : ObjectClass) (sim : Option (List Int))
    (clause : OrderClause) : Except QueryError OrderSpec := do
  let key := lowerStr clause.name
  let spec ←
    if key = "__similarity__" then
      match sim with
      | some _ => pure (OrderSpec.mk OrderCol.simWeight false)
      | none =>
        throw (.badQuery "Cannot order by __similarity__ when no similar filter was applied.")
    else
      let k2 := ((env.attrNameMap cls.name key).getD (key, none)).1
      if !(cls.attrs.contains k2) then
        throw (.badQuery ("Model " ++ cls.name ++ " does not have " ++ k2 ++ " attribute"))
      else
        match env.relKind cls.name k2 with
        | none => pure (OrderSpec.mk (OrderCol.attrCol k2) false)
        | some .titled => pure (OrderSpec.mk (OrderCol.relTitle k2) false)
        | some .person => pure (OrderSpec.mk (OrderCol.relPersonNameEmail k2) false)
        | some (.otherRel n) =>
          throw (.notImplementedError ("Sorting by " ++ n ++ " is not implemented yet."))
  if clause.desc then pure (OrderSpec.mk spec.col true) else pure spec

/-- QueryHelper._apply_order_by: resolve every clause, then let the store
apply the resulting ORDER BY (with its joins) to the result set. -/
def applyOrderBy (env : Env) (cls : ObjectClass) (sim : Option (List Int))
    (objs : List Obj) (order_by : List OrderClause) :
    Except QueryError (List Obj) := do
  let specs ← order_by.mapM (joinAndOrder env cls sim)
  pure (env.sortObjs specs sim objs)

/-- The two kinds of result collection that reach _apply_limit and the id
extraction of get_ids: _get_objects returns the Python set() literal on its
no-expression path and a list comprehension otherwise.  A set supports
iteration but not slicing. -/
inductive ObjColl where
  | pyset (elems : List Obj)
  | pylist (elems : List Obj)

/-- Iteration over a result collection, as in [o.id for o in objects].  The
only set that ever occurs is empty, so the arbitrary iteration order of a
Python set does not show. -/
def ObjColl.elems : ObjColl → List Obj
  | .pyset xs => xs
  | .pylist xs => xs

/-- QueryHelper._apply_limit restricted to list results: a falsy limit
(absent or the empty list) leaves the results unchanged; a two-element
integer limit slices results[from:to]; anything else fails unpacking or
slicing and the bare except turns it into a BadQuery error. -/
def applyLimit (objects : List Obj) (limit : Option (List Value)) :
    Except QueryError (List Obj) :=
  match limit with
  | none => .ok objects
  | some [] => .ok objects
  | some [a, b] =>
    (match a, b with
     | Value.vint a2, Value.vint b2 => .ok (pySlice objects a2 b2)
     | _, _ => .error (.badQuery "Bad query: Invalid limit parameter."))
  | some _ => .error (.badQuery "Bad query: Invalid limit parameter.")

/-- QueryHelper._apply_limit on the union of collection types that reach it:
for a list it behaves as applyLimit; for the set() of the no-expression path
any truthy limit fails with BadQuery, because either unpacking fails (not
two elements) or slicing the set raises TypeError (sets are not
subscriptable), both caught by the bare except. -/
def applyLimitColl (objects : ObjColl) (limit : Option (List Value)) :
    Except QueryError ObjColl :=
  match objects with
  | .pylist xs =>
    (match applyLimit xs limit with
     | .ok ys => .ok (.pylist ys)
     | .error e => .error e)
  | .pyset xs =>
    (match limit with
     | none => .ok (.pyset xs)
     | some [] => .ok (.pyset xs)
     | some _ => .error (.badQuery "Bad query: Invalid limit parameter."))

/-- The permission filtering at the end of _get_objects: exactly the string
update selects the update check, any other or absent value selects read. -/
def permFilter (env : Env) (perms : Option String) (objs : List Obj) : List Obj :=
  if perms.getD "read" = "update" then objs.filter env.canUpdate
  else objs.filter env.canRead

/-- QueryHelper._get_objects: an absent filter expression short-circuits to
the empty set() before the object class is even resolved; otherwise the
class is looked up, the expression compiled, the store filtered, ordering
applied when order_by is present and nonempty, and the survivors filtered by
the authorization gate under the requested permission mode.  batch is
self.query (the current state of the whole request batch) and sim is the
request-scoped similarity-subquery slot. -/
def getObjects (env : Env) (batch : List ObjectQuery) (sim : Option (List Int))
    (oq : ObjectQuery) : Except QueryError (ObjColl × Option (List Int)) :=
  match oq.filters.bind Filters.expression with
  | none => pure (.pyset [], sim)
  | some exp => do
    let cls ← match env.object_map oq.object_name with
      | some c => pure c
      | none => throw (.keyError oq.object_name)
    let (filt, sim2) ← buildExpression env batch cls oq.fields exp sim
    let objs0 := env.storeQuery cls.name
    let objs1 := match filt with
      | some f => objs0.filter (fun o => evalFilt o f)
      | none => objs0
    let objs2 ← match oq.order_by with
      | some obs =>
        if obs.isEmpty then pure objs1
        else applyOrderBy env cls sim2 objs1 obs
      | none => pure objs1
    pure (.pylist (permFilter env oq.permissions objs2), sim2)

/-- Record the resolved ids on a query (object_query["ids"] = ...). -/
def setIds (oq : ObjectQuery) (l : List Int) : ObjectQuery :=
  { oq with ids := some l }

/-- The loop of get_ids: queries are processed strictly in batch order; while
one is processed, self.query consists of the already-updated ones, the
current one (still without ids) and the untouched rest; after _get_objects
and _apply_limit, the ids of the surviving objects are recorded on the
current query. -/
def getIdsGo (env : Env) (sim : Option (List Int)) (done todo : List ObjectQuery) :
    Except QueryError (List ObjectQuery) :=
  match todo with
  | [] => pure done
  | oq :: rest => do
    let (objs, sim2) ← getObjects env (done ++ oq :: rest) sim oq
    let objs2 ← applyLimitColl objs oq.limit
    getIdsGo env sim2 (done ++ [setIds oq (objs2.elems.map Obj.id)]) rest

/-- QueryHelper.get_ids: resolve every Object Query of the batch in order and
return the same batch with ids recorded. -/
def getIds (env : Env) (sim : Option (List Int)) (batch : List ObjectQuery) :
    Except QueryError (List ObjectQuery) :=
  getIdsGo env sim [] batch

/-- The whole request pipeline: the constructor sanitizes the batch
(_clean_query) and get_ids then resolves it. -/
def queryHelperRun (env : Env) (sim : Option (List Int))
    (batch : List ObjectQuery) : Except QueryError (List ObjectQuery) := do
  let q ← cleanQuery env batch
  getIds env sim q

/-- An object with a given id and no attribute values, for concrete tests. -/
def mkObj (n : Int) : Obj where
  id := n
  attrVal := fun _ => none

/-- A model class with the similarity contract, used as the queried class in
concrete instances. -/
def clsControl : ObjectClass where
  name := "Control"
  attrs := ["title", "start_date"]
  hasGetSimilarObjectsQuery := true
  getSimilarObjectIds := fun _ _ => [7, 8]

/-- A model class without the similarity contract. -/
def clsRegulation : ObjectClass where
  name := "Regulation"
  attrs := ["title"]
  hasGetSimilarObjectsQuery := false
  getSimilarObjectIds := fun _ _ => []

/-- A small concrete environment: two registered classes, three stored
Control objects, a read check that hides id 2 and an update check that only
allows id 3. -/
def envTest : Env where
  object_map := fun n =>
    if n = "Control" then some clsControl
    else if n = "Regulation" then some clsRegulation
    else none
  attrNameMap := fun _ _ => none
  relKind := fun _ _ => none
  relatedIds := fun _ _ tids => Int.ofNat tids.length :: [99]
  slugsToIds := fun _ _ => []
  canRead := fun o => o.id != 2
  canUpdate := fun o => o.id == 3
  storeQuery := fun n => if n = "Control" then [mkObj 1, mkObj 2, mkObj 3] else []
  sortObjs := fun _ _ objs => objs

/-- An Object Query with no filters at all. -/
def oqPlain : ObjectQuery where
  object_name := "Control"
  permissions := none
  order_by := none
  limit := none
  filters := none
  fields := []
  ids := none

/-- An Object Query whose filter expression is present but carries no op
key. -/
def oqOpless : ObjectQuery where
  object_name := "Control"
  permissions := none
  order_by := none
  limit := none
  filters := some (Filters.mk (some (.node none none none none none none none none)))
  fields := []
  ids := none

/-- An already-resolved batch entry, as a target for a __previous__
back-reference. -/
def oqPrior : ObjectQuery where
  object_name := "Program"
  permissions := none
  order_by := none
  limit := none
  filters := none
  fields := []
  ids := some [11, 12]

/-- A TaskGroupTask Object Query around a given filter expression. -/
def mkTG (e : Exp) : ObjectQuery where
  object_name := "TaskGroupTask"
  permissions := none
  order_by := none
  limit := none
  filters := some (Filters.mk (some e))
  fields := []
  ids := none

/-- A single comparison leaf with a string field name and string literal. -/
def mkLeaf (o key rhs : String) : Exp :=
  .node (some o) (some (.lit (.vstr key))) (some (.lit (.vstr rhs))) none none none none none

/-- Ten objects with ids 0 through 9. -/
def tenObjs : List Obj :=
  (List.range 10).map fun n => mkObj (Int.ofNat n)

theorem applyLimitColl_set_ok (xs : List Obj) (limit : Option (List Value))
    (out : ObjColl) (h : applyLimitColl (.pyset xs) limit = .ok out) :
    out = .pyset xs := by
  rcases limit with _ | ⟨_ | ⟨u, rest⟩⟩
  · exact (Except.ok.inj h).symm
  · exact (Except.ok.inj h).symm
  · exact Except.noConfusion h

/-- Claim C1: for a similar filter leaf whose target type declares no
similarity contract, the claim says compilation fails by raising BadQuery;
the code instead RETURNS the BadQueryException object, so compilation
succeeds and yields the exception object as the predicate value.  This
theorem evaluates the compiler on such a leaf and exhibits the successful
result carrying the exception object. -/
theorem similar_without_contract_returns_exception_object :
    buildExpression envTest [] clsControl []
      (.node (some "similar") none none (some "Regulation") none none (some (.vint 1)) none) none
    = .ok (some (.excObj
        "Regulation does not define weights to count relationships similarity"), none) := rfl

/-- Claim C2, counterexample: with a date left field and the right literal
"2/30/2020", integer parsing succeeds (2, 30, 2020) and the date constructor
rejects the calendar-invalid date, yet the failure is the wrapped BadQuery
error, not the raw date-construction error as the claim states, because the
date construction sits inside the catch-all handler of autocast. -/
theorem autocast_calendar_invalid_wrapped_not_raw :
    validDate 2020 2 30 = false ∧
    pyIntStr "2" = some 2 ∧ pyIntStr "30" = some 30 ∧ pyIntStr "2020" = some 2020 ∧
    autocast envTest clsControl (.lit (.vstr "start_date")) (.lit (.vstr "2/30/2020"))
      = .error (.badQuery "Field \"start_date\" expects a MM/DD/YYYY date") :=
  ⟨rfl, rfl, rfl, rfl, rfl⟩

/-- Claim C2 as amended: when the left field resolves to a date key, the
literals "02/30/2020" and "2/30/2020" behave identically; both parse their
parts as integers, and the date constructor rejection of the calendar-invalid
date is caught by autocast's handler, so both fail with BadQuery. -/
theorem autocast_calendar_invalid_badquery (env : Env) (cls : ObjectClass) (okey : String)
    (hdate : isDateKey ((env.attrNameMap cls.name okey).getD (okey, none)).1 = true) :
    autocast env cls (.lit (.vstr okey)) (.lit (.vstr "02/30/2020"))
      = .error (.badQuery ("Field \"" ++ okey ++ "\" expects a MM/DD/YYYY date")) ∧
    autocast env cls (.lit (.vstr okey)) (.lit (.vstr "2/30/2020"))
      = .error (.badQuery ("Field \"" ++ okey ++ "\" expects a MM/DD/YYYY date")) := by
  constructor <;> (show (if isDateKey ((env.attrNameMap cls.name okey).getD (okey, none)).1
    then _ else _ : Except QueryError Exp) = _; rw [if_pos hdate]; exact rfl)

/-- Witness for the amended C2 theorem at a concrete date field. -/
theorem autocast_calendar_invalid_badquery_witness :
    autocast envTest clsControl (.lit (.vstr "start_date")) (.lit (.vstr "02/30/2020"))
      = .error (.badQuery "Field \"start_date\" expects a MM/DD/YYYY date") ∧
    autocast envTest clsControl (.lit (.vstr "start_date")) (.lit (.vstr "2/30/2020"))
      = .error (.badQuery "Field \"start_date\" expects a MM/DD/YYYY date") :=
  autocast_calendar_invalid_badquery envTest clsControl "start_date" (by decide)

/-- Claim C7, counterexample: the empty list is a limit with a number of
elements other than two, yet it is falsy in Python, so _apply_limit returns
the results unchanged instead of failing with BadQuery as the claim states.
-/
theorem applyLimit_empty_limit_returns_unchanged :
    applyLimit [mkObj 0] (some []) = .ok [mkObj 0] := rfl

/-- Claim C7 as amended: a two-element integer limit returns exactly the
Python slice results[from:to] (concretely, limit [2,5] on ten results keeps
positions 2, 3, 4); a malformed NONEMPTY limit (not two elements, or with a
non-integer element) fails with BadQuery; an absent limit, and likewise the
falsy empty-list limit, leaves the results unchanged. -/
theorem applyLimit_slice_and_errors :
    (∀ (objects : List Obj) (a b : Int),
      applyLimit objects (some [.vint a, .vint b]) = .ok (pySlice objects a b)) ∧
    applyLimit tenObjs (some [.vint 2, .vint 5]) = .ok [mkObj 2, mkObj 3, mkObj 4] ∧
    (∀ (objects : List Obj) (lim : List Value), lim ≠ [] → lim.length ≠ 2 →
      applyLimit objects (some lim) = .error (.badQuery "Bad query: Invalid limit parameter.")) ∧
    (∀ (objects : List Obj) (u v : Value), (∀ a b : Int, ¬(u = .vint a ∧ v = .vint b)) →
      applyLimit objects (some [u, v]) = .error (.badQuery "Bad query: Invalid limit parameter.")) ∧
    (∀ objects : List Obj, applyLimit objects none = .ok objects) ∧
    (∀ objects : List Obj, applyLimit objects (some []) = .ok objects) := by
  refine ⟨fun objects a b => rfl, rfl, ?_, ?_, fun objects => rfl, fun objects => rfl⟩
  · intro objects lim h1 h2
    rcases lim with _ | ⟨u, _ | ⟨v, _ | ⟨w, rest3⟩⟩⟩
    · exact absurd rfl h1
    · rcases u with a | s | ⟨y, m, d⟩ <;> rfl
    · exact absurd rfl h2
    · rfl
  · intro objects u v h
    rcases u with a | s | ⟨y, m, d⟩ <;> rcases v with b | t | ⟨p, q, d2⟩ <;>
      first
      | exact absurd ⟨rfl, rfl⟩ (h _ _)
      | rfl

/-- Witness for the amended C7 theorem at concrete limits. -/
theorem applyLimit_slice_and_errors_witness :
    applyLimit [mkObj 0] (some [Value.vstr "x"])
      = .error (.badQuery "Bad query: Invalid limit parameter.") ∧
    applyLimit [mkObj 0] (some [Value.vstr "a", Value.vint 3])
      = .error (.badQuery "Bad query: Invalid limit parameter.") ∧
    applyLimit [mkObj 0, mkObj 1, mkObj 2] (some [Value.vint 1, Value.vint 2])
      = .ok [mkObj 1] :=
  ⟨applyLimit_slice_and_errors.2.2.1 [mkObj 0] [Value.vstr "x"] (by decide) (by decide),
   applyLimit_slice_and_errors.2.2.2.1 [mkObj 0] (Value.vstr "a") (Value.vint 3)
     (fun a b hab => Value.noConfusion hab.1),
   applyLimit_slice_and_errors.1 [mkObj 0, mkObj 1, mkObj 2] 1 2⟩

/-- Claim C10: any permissions value other than exactly the string update
(absent, read, or unrecognized) selects the read-permission filter, and
exactly update selects the update-permission filter. -/
theorem permissions_update_exact_dispatch (env : Env) (objs : List Obj) :
    (∀ p : Option String, p ≠ some "update" → permFilter env p objs = objs.filter env.canRead) ∧
    permFilter env (some "update") objs = objs.filter env.canUpdate := by
  constructor
  · rintro (_ | s) hp
    · rfl
    · have hs : s ≠ "update" := fun h => hp (by rw [h])
      simp [permFilter, hs]
  · rfl

/-- Witness for C10 at a concrete environment, object list and modes. -/
theorem permissions_update_exact_dispatch_witness :
    permFilter envTest (some "read") [mkObj 1, mkObj 2]
      = [mkObj 1, mkObj 2].filter envTest.canRead ∧
    permFilter envTest (some "update") [mkObj 1, mkObj 2]
      = [mkObj 1, mkObj 2].filter envTest.canUpdate :=
  ⟨(permissions_update_exact_dispatch envTest [mkObj 1, mkObj 2]).1 (some "read") (by decide),
   (permissions_update_exact_dispatch envTest [mkObj 1, mkObj 2]).2⟩

theorem excPureEq {α : Type} (a : α) : (pure a : Except QueryError α) = .ok a := rfl

theorem excThrowEq {α : Type} (e : QueryError) : (throw e : Except QueryError α) = .error e := rfl

theorem excBindOk {α β : Type} (a : α) (f : α → Except QueryError β) :
    (Except.ok a >>= f) = f a := rfl

theorem excBindError {α β : Type} (e : QueryError) (f : α → Except QueryError β) :
    ((Except.error e : Except QueryError α) >>= f) = .error e := rfl

theorem excMapOk {α β : Type} (f : α → β) (a : α) :
    (f <$> (Except.ok a : Except QueryError α)) = .ok (f a) := rfl

theorem excMapError {α β : Type} (f : α → β) (e : QueryError) :
    (f <$> (Except.error e : Except QueryError α)) = .error e := rfl

theorem splitOnChar_3_15_2021 : splitOnChar '/' "3/15/2021" = ["3", "15", "2021"] := rfl

theorem splitOnChar_3_15 : splitOnChar '/' "3/15" = ["3", "15"] := rfl

theorem splitOnChar_15 : splitOnChar '/' "15" = ["15"] := rfl

theorem splitOnChar_3_15_2021_x : splitOnChar '/' "3/15/2021/x" = ["3", "15", "2021", "x"] := rfl

theorem pyIntStr_3 : pyIntStr "3" = some 3 := rfl

theorem pyIntStr_15 : pyIntStr "15" = some 15 := rfl

theorem pyIntStr_2021 : pyIntStr "2021" = some 2021 := rfl

theorem validDate_2021_3_15 : validDate 2021 3 15 = true := rfl

/-- Claim C3: for a TaskGroupTask Object Query whose expression is a leaf on
field key start (or end) with any non-AND/OR operator, the macro expansion
rewrites: a three-part right value 3/15/2021 into a comparison of
<key>_date against date(2021, 3, 15); a two-part value 3/15 into an AND of
relative_<key>_month = 3 and relative_<key>_day = 15 (each keeping the
original operator); a one-part value 15 into a comparison on
relative_<key>_day; and any other number of parts fails with BadQuery. -/
theorem task_date_rewrites (o key : String) (ho1 : o ≠ "AND") (ho2 : o ≠ "OR")
    (hk : key = "start" ∨ key = "end") :
    expandObjectQueryDates (mkTG (mkLeaf o key "3/15/2021"))
      = .ok (mkTG (.node (some o) (some (.lit (.vstr (key ++ "_date"))))
          (some (.lit (.vdate 2021 3 15))) none none none none none)) ∧
    expandObjectQueryDates (mkTG (mkLeaf o key "3/15"))
      = .ok (mkTG (.node (some "AND")
          (some (.node (some o) (some (.lit (.vstr ("relative_" ++ key ++ "_month"))))
            (some (.lit (.vstr "3"))) none none none none none))
          (some (.node (some o) (some (.lit (.vstr ("relative_" ++ key ++ "_day"))))
            (some (.lit (.vstr "15"))) none none none none none))
          none none none none none)) ∧
    expandObjectQueryDates (mkTG (mkLeaf o key "15"))
      = .ok (mkTG (.node (some o) (some (.lit (.vstr ("relative_" ++ key ++ "_day"))))
          (some (.lit (.vstr "15"))) none none none none none)) ∧
    expandObjectQueryDates (mkTG (mkLeaf o key "3/15/2021/x"))
      = .error (.badQuery ("Field " ++ key ++ " should be a date of one of the" ++
          " following forms: DD, MM/DD, MM/DD/YYYY")) := by
  rcases hk with hk | hk <;> subst hk <;>
    refine ⟨?_, ?_, ?_, ?_⟩ <;>
    simp [expandObjectQueryDates, mkTG, mkLeaf, expressionKeys, expandTaskDates,
      ho1, ho2, splitOnChar_3_15_2021, splitOnChar_3_15, splitOnChar_15,
      splitOnChar_3_15_2021_x, pyIntStr_3, pyIntStr_15, pyIntStr_2021,
      validDate_2021_3_15, excPureEq, excThrowEq, excBindOk, excBindError,
      excMapOk, excMapError]

/-- Witness for C3 at the equality operator and the start key. -/
theorem task_date_rewrites_witness :
    expandObjectQueryDates (mkTG (mkLeaf "=" "start" "3/15/2021"))
      = .ok (mkTG (.node (some "=") (some (.lit (.vstr "start_date")))
          (some (.lit (.vdate 2021 3 15))) none none none none none)) ∧
    expandObjectQueryDates (mkTG (mkLeaf "=" "start" "3/15"))
      = .ok (mkTG (.node (some "AND")
          (some (.node (some "=") (some (.lit (.vstr "relative_start_month")))
            (some (.lit (.vstr "3"))) none none none none none))
          (some (.node (some "=") (some (.lit (.vstr "relative_start_day")))
            (some (.lit (.vstr "15"))) none none none none none))
          none none none none none)) ∧
    expandObjectQueryDates (mkTG (mkLeaf "=" "start" "15"))
      = .ok (mkTG (.node (some "=") (some (.lit (.vstr "relative_start_day")))
          (some (.lit (.vstr "15"))) none none none none none)) ∧
    expandObjectQueryDates (mkTG (mkLeaf "=" "start" "3/15/2021/x"))
      = .error (.badQuery ("Field start should be a date of one of the" ++
          " following forms: DD, MM/DD, MM/DD/YYYY")) :=
  task_date_rewrites "=" "start" (by decide) (by decide) (Or.inl rfl)

/-- Claim C5: sanitization coerces the ids entries of an expression node to
integers; when some entry is a non-numeric string the coercion raises a
ValueError, which _clean_filters converts into a BadQuery error naming the
node's object type exactly when the operator is relevant, and re-raises
unchanged for any other operator. -/
theorem cleanFilters_nonnumeric_ids_dichotomy (env : Env)
    (op : Option String) (l r : Option Exp) (objn : Option String)
    (xs : List Value) (id_ : Option Value) (text : Option String) (m : String)
    (hco : coerceIds xs = .error (.valueError m)) :
    (cleanFilters env (.node (some "relevant") l r objn (some xs) none id_ text)
      = .error (.badQuery ("Invalid relevant filter for " ++ objn.getD ""))) ∧
    (op.getD "" ≠ "relevant" →
      cleanFilters env (.node op l r objn (some xs) none id_ text)
        = .error (.valueError m)) ∧
    (∀ (s : String) (pre : List Int) (rest : List Value), pyIntStr s = none →
      coerceIds (pre.map Value.vint ++ Value.vstr s :: rest)
        = .error (.valueError ("invalid literal for int with base 10: " ++ s))) := by
  refine ⟨?_, ?_, ?_⟩
  · simp [cleanFilters, Exp.isEmptyNode, hco, excPureEq, excThrowEq, excBindOk,
      excBindError, excMapOk, excMapError]
  · intro hop
    simp [cleanFilters, Exp.isEmptyNode, hco, hop, excPureEq, excThrowEq,
      excBindOk, excBindError, excMapOk, excMapError]
  · intro s pre rest hs
    induction pre with
    | nil =>
      simp [coerceIds, pyIntV, hs, excPureEq, excThrowEq, excBindOk,
        excBindError, excMapOk, excMapError]
    | cons p ps ih =>
      simp only [coerceIds, pyIntV, excBindOk, List.map_cons, List.cons_append, List.append_eq]
      rw [ih]
      rfl

/-- Witness for C5 at a concrete non-numeric id list. -/
theorem cleanFilters_nonnumeric_ids_dichotomy_witness :
    (cleanFilters envTest (.node (some "relevant") none none (some "Program")
        (some [Value.vstr "abc"]) none none none)
      = .error (.badQuery "Invalid relevant filter for Program")) ∧
    ((some "=" : Option String).getD "" ≠ "relevant" →
      cleanFilters envTest (.node (some "=") none none (some "Program")
          (some [Value.vstr "abc"]) none none none)
        = .error (.valueError "invalid literal for int with base 10: abc")) ∧
    (∀ (s : String) (pre : List Int) (rest : List Value), pyIntStr s = none →
      coerceIds (pre.map Value.vint ++ Value.vstr s :: rest)
        = .error (.valueError ("invalid literal for int with base 10: " ++ s))) :=
  cleanFilters_nonnumeric_ids_dichotomy envTest (some "=") none none (some "Program")
    [Value.vstr "abc"] none none "invalid literal for int with base 10: abc" rfl

/-- Claim C6: a relevant leaf whose object type is the sentinel __previous__
compiles to a membership test against the relationship resolver called with
the object type and the already-recorded ids of the batch entry at the index
given by the leaf's first id, instead of the leaf's own fields. -/
theorem relevant_previous_uses_prior_batch_entry (env : Env)
    (batch : List ObjectQuery) (cls : ObjectClass) (fields : List String)
    (sim : Option (List Int)) (i : Nat) (rest : List Value)
    (entry : ObjectQuery) (entryIds : List Int)
    (l r : Option Exp) (slugs : Option (List String)) (id_ : Option Value)
    (text : Option String)
    (hentry : batch[i]? = some entry) (hids : entry.ids = some entryIds) :
    buildExpression env batch cls fields
      (.node (some "relevant") l r (some "__previous__")
        (some (Value.vint (Int.ofNat i) :: rest)) slugs id_ text) sim
      = .ok (some (.inIds (env.relatedIds cls.name entry.object_name
          (entryIds.map Value.vint))), sim) := by
  simp [buildExpression, buildLeafOp, pyIndex, hentry, hids, excPureEq,
    excThrowEq, excBindOk, excBindError, excMapOk, excMapError]

/-- Witness for C6: the second batch entry references the first, already
resolved to ids 11 and 12. -/
theorem relevant_previous_uses_prior_batch_entry_witness :
    buildExpression envTest [oqPrior] clsControl []
      (.node (some "relevant") none none (some "__previous__")
        (some [Value.vint 0]) none none none) none
      = .ok (some (.inIds (envTest.relatedIds "Control" "Program"
          [Value.vint 11, Value.vint 12])), none) :=
  relevant_previous_uses_prior_batch_entry envTest [oqPrior] clsControl [] none 0 []
    oqPrior [11, 12] none none none none none rfl rfl

theorem getIdsGo_ok_shape (env : Env) (todo : List ObjectQuery) :
    ∀ (done out : List ObjectQuery) (sim : Option (List Int)),
      getIdsGo env sim done todo = .ok out →
      ∃ tail, out = done ++ tail ∧ tail.length = todo.length ∧
        ∀ (i : Nat) (q : ObjectQuery), todo[i]? = some q →
          ∃ l, tail[i]? = some (setIds q l) ∧
            (q.filters.bind Filters.expression = none → l = []) := by
  induction todo with
  | nil =>
    intro done out sim h
    refine ⟨[], ?_, rfl, ?_⟩
    · have hd := Except.ok.inj h
      simp [hd]
    · intro i q hq
      simp at hq
  | cons oq rest ih =>
    intro done out sim h
    simp only [getIdsGo] at h
    rcases hget : getObjects env (done ++ oq :: rest) sim oq with e | ⟨objs, sim2⟩
    · rw [hget, excBindError] at h
      exact Except.noConfusion h
    · rw [hget, excBindOk] at h
      rcases hlim : applyLimitColl objs oq.limit with e | objs2
      · rw [hlim, excBindError] at h
        exact Except.noConfusion h
      · rw [hlim, excBindOk] at h
        obtain ⟨tail, hout, hlen, hidx⟩ :=
          ih (done ++ [setIds oq (objs2.elems.map Obj.id)]) out sim2 h
        refine ⟨setIds oq (objs2.elems.map Obj.id) :: tail, ?_, by simp [hlen], ?_⟩
        · rw [hout]
          simp
        · intro i q hq
          cases i with
          | zero =>
            simp only [List.getElem?_cons_zero, Option.some.injEq] at hq
            subst hq
            refine ⟨objs2.elems.map Obj.id, by simp, ?_⟩
            intro hnone
            have hcopy := hget
            simp only [getObjects, hnone, excPureEq, Except.ok.injEq,
              Prod.mk.injEq] at hcopy
            have hobj : objs = .pyset [] := hcopy.1.symm
            have h2 := applyLimitColl_set_ok [] oq.limit objs2 (hobj ▸ hlim)
            simp [h2, ObjColl.elems]
          | succ n =>
            simp only [List.getElem?_cons_succ] at hq ⊢
            exact hidx n q hq

/-- Claim C4: a successful get_ids returns a batch of the same length whose
entry at every index is the input entry at that index with its ids field set
to a list of integers; no entry is dropped or reordered. -/
theorem getIds_preserves_batch (env : Env) (sim : Option (List Int))
    (batch out : List ObjectQuery) (h : getIds env sim batch = .ok out) :
    out.length = batch.length ∧
    ∀ (i : Nat) (q : ObjectQuery), batch[i]? = some q →
      ∃ l : List Int, out[i]? = some (setIds q l) := by
  obtain ⟨tail, hout, hlen, hidx⟩ := getIdsGo_ok_shape env batch [] out sim h
  simp only [List.nil_append] at hout
  subst hout
  exact ⟨hlen, fun i q hq => (hidx i q hq).imp fun l hl => hl.1⟩

/-- Witness for C4 on a one-query batch without filters. -/
theorem getIds_preserves_batch_witness :
    [setIds oqPlain []].length = [oqPlain].length ∧
    ∀ (i : Nat) (q : ObjectQuery), [oqPlain][i]? = some q →
      ∃ l : List Int, [setIds oqPlain []][i]? = some (setIds q l) :=
  getIds_preserves_batch envTest none [oqPlain] [setIds oqPlain []] rfl

/-- Claim C8, counterexample: an Object Query with no filter expression but
with a present two-element limit does NOT resolve to empty ids; _get_objects
returns a set(), slicing a set raises TypeError, and the bare except of
_apply_limit turns that into BadQuery, aborting the batch. -/
theorem no_expression_with_limit_aborts :
    getIds envTest none [{ oqPlain with limit := some [Value.vint 0, Value.vint 5] }]
      = .error (.badQuery "Bad query: Invalid limit parameter.") := rfl

/-- Claim C8 as amended: whenever the batch resolves successfully (in
particular the query's limit must be absent or the falsy empty list, since a
present nonempty limit makes slicing the set() fail with BadQuery), an
Object Query whose filters carry no expression resolves to the empty ids
list, for every environment and hence regardless of the stored contents of
the object type. -/
theorem no_expression_empty_ids (env : Env) (sim : Option (List Int))
    (batch out : List ObjectQuery) (i : Nat) (q : ObjectQuery)
    (h : getIds env sim batch = .ok out) (hq : batch[i]? = some q)
    (he : q.filters.bind Filters.expression = none) :
    out[i]? = some (setIds q []) := by
  obtain ⟨tail, hout, hlen, hidx⟩ := getIdsGo_ok_shape env batch [] out sim h
  simp only [List.nil_append] at hout
  subst hout
  obtain ⟨l, hl, himp⟩ := hidx i q hq
  rw [himp he] at hl
  exact hl

/-- Witness for C8 on a one-query batch without filters, over a store that
does hold objects of the type. -/
theorem no_expression_empty_ids_witness :
    [setIds oqPlain []][0]? = some (setIds oqPlain []) :=
  no_expression_empty_ids envTest none [oqPlain] [setIds oqPlain []] 0 oqPlain
    rfl rfl rfl

/-- Claim C9: a present filter expression without an op key compiles to no
filter, so the query resolves to every authorization-permitted object of the
requested type, whereas an absent expression resolves to the empty list. -/
theorem opless_expression_returns_all_permitted (env : Env) (sim : Option (List Int))
    (oq : ObjectQuery) (cls : ObjectClass)
    (l r : Option Exp) (objn : Option String) (ids : Option (List Value))
    (slugs : Option (List String)) (id_ : Option Value) (text : Option String)
    (hcls : env.object_map oq.object_name = some cls)
    (hexp : oq.filters.bind Filters.expression
      = some (.node none l r objn ids slugs id_ text))
    (hob : oq.order_by = none) (hperm : oq.permissions = none)
    (hlim : oq.limit = none) :
    getIds env sim [oq]
      = .ok [setIds oq (((env.storeQuery cls.name).filter env.canRead).map Obj.id)] ∧
    ∀ oq2 : ObjectQuery, oq2.filters.bind Filters.expression = none →
      oq2.limit = none → getIds env sim [oq2] = .ok [setIds oq2 []] := by
  constructor
  · simp [getIds, getIdsGo, getObjects, hexp, hcls, hob, hperm, hlim,
      buildExpression, applyLimit, applyLimitColl, ObjColl.elems, permFilter,
      excPureEq, excThrowEq, excBindOk, excBindError, excMapOk, excMapError]
  · intro oq2 h1 h2
    simp [getIds, getIdsGo, getObjects, h1, h2, applyLimit, applyLimitColl,
      ObjColl.elems, excPureEq, excBindOk]

/-- Witness for C9: the op-less expression returns the read-permitted subset
of the three stored Control objects, while a missing expression returns
nothing. -/
theorem opless_expression_returns_all_permitted_witness :
    getIds envTest none [oqOpless]
      = .ok [setIds oqOpless
          (((envTest.storeQuery clsControl.name).filter envTest.canRead).map Obj.id)] ∧
    ∀ oq2 : ObjectQuery, oq2.filters.bind Filters.expression = none →
      oq2.limit = none → getIds envTest none [oq2] = .ok [setIds oq2 []] :=
  opless_expression_returns_all_permitted envTest none oqOpless clsControl
    none none none none none none none rfl rfl rfl rfl rfl
